import Mathlib

/-!
# Verification of the MyST notebook text-representation converter

A shallow embedding, in Lean 4, of the cell-extraction core of
`myst_nb/converter.py`:

* dialect detection (`is_myst_notebook`),
* blank-line trimming (`strip_blank_lines`),
* the fenced-cell and cell-metadata sub-parsers
  (`read_fenced_cell`, `read_cell_metadata`),
* the token-scan state machine (`myst_to_notebook`).

External collaborators of the core — the markdown-it block tokenizer, the
YAML parser (`yaml.safe_load`), the JSON parser (`json.loads`) and the
directive option parser (`myst_parser.parse_directives.parse_directive_text`)
— are taken as parameters: the token stream is an input, and the parsers are
function-valued fields of the configuration.  `text.splitlines()` is likewise
performed outside the model: the functions receive the list of source lines.

Python exceptions are modelled with `Except`: `MystMetadataParsingError`,
the two `IOError`s of `is_myst_notebook`, the `AttributeError`/`TypeError`
raised by `.get`/`in` on non-dict values, the `IndexError` of `tokens[0]`
on an empty token list, and an uncaught YAML parser error.
-/
/-- A JSON/YAML-style value tree (`dict`, `list`, scalars), the common
codomain of the modelled `json.loads` and `yaml.safe_load`. -/
inductive Json where
  | null : Json
  | bool : Bool → Json
  | num : Int → Json
  | str : String → Json
  | arr : List Json → Json
  | obj : List (String × Json) → Json

/-- A block-level token of the external markdown-it tokenizer: type tag,
nesting delta, info string, raw content, and the source line span
(`token.map`, 0-based start line and end line). -/
structure Token where
  type : String
  nesting : Int
  info : String
  content : String
  map : Nat × Nat
  deriving DecidableEq

/-- The three notebook cell types. -/
inductive CellType where
  | markdown : CellType
  | code : CellType
  | raw : CellType
  deriving DecidableEq

/-- A notebook cell: type, source text and metadata dict. -/
structure Cell where
  cell_type : CellType
  source : String
  metadata : List (String × Json)

/-- The assembled notebook: document metadata plus the ordered cell list. -/
structure Notebook where
  metadata : Json
  cells : List Cell

/-- The Python exceptions the embedded code can raise. -/
inductive PyErr where
  | mystMetadataParsingError : String → PyErr
  | ioError : String → PyErr
  | attributeError : PyErr
  | typeError : PyErr
  | indexError : PyErr
  | yamlError : String → PyErr
  deriving DecidableEq

/-- The characters stripped by Python's `str.strip` family
(space, tab, newline, carriage return, vertical tab, form feed). -/
def isPySpace (c : Char) : Bool :=
  c == ' ' || c == '\t' || c == '\n' || c == '\r' ||
    c == Char.ofNat 11 || c == Char.ofNat 12

/-- Python `text.rstrip()`: remove trailing whitespace characters. -/
def pyRstrip (s : String) : String :=
  String.mk ((s.data.reverse.dropWhile isPySpace).reverse)

/-- Python `text.strip()`: remove leading and trailing whitespace. -/
def pyStrip (s : String) : String :=
  String.mk (((s.data.dropWhile isPySpace).reverse.dropWhile isPySpace).reverse)

/-- Python `s.startswith(pre)`. -/
def pyStartsWith (s pre : String) : Bool :=
  pre.data.isPrefixOf s.data

/-- Python `"\n".join(lines)`. -/
def joinNl (lines : List String) : String :=
  String.intercalate "\n" lines

/-- Python list slicing `xs[a:b]` for 0 ≤ a, b. -/
def pySlice (xs : List String) (a b : Nat) : List String :=
  (xs.drop a).take (b - a)

/-- `strip_blank_lines` of the source: `text.rstrip()`, then repeatedly
remove a leading newline character. -/
def strip_blank_lines (text : String) : String :=
  String.mk ((pyRstrip text).data.dropWhile (fun c => c == '\n'))

/-- Python substring test `sub in s` on strings. -/
def listInfixOf (sub : List Char) : List Char → Bool
  | [] => sub.isEmpty
  | c :: rest => sub.isPrefixOf (c :: rest) || listInfixOf sub rest

/-- Python `d.get(key, default)`: on a dict, look the key up with a default;
on any non-dict value it raises `AttributeError`. -/
def pyGet (v : Json) (key : String) (default : Json) : Except PyErr Json :=
  match v with
  | Json.obj kvs =>
    match kvs.lookup key with
    | some w => .ok w
    | none => .ok default
  | _ => .error .attributeError

/-- Python `key in v`: key membership on a dict, substring test on a string,
membership on a list, `TypeError` otherwise. -/
def pyContains (v : Json) (key : String) : Except PyErr Bool :=
  match v with
  | Json.obj kvs => .ok (kvs.any (fun p => p.1 == key))
  | Json.str s => .ok (listInfixOf key.data s.data)
  | Json.arr xs =>
    .ok (xs.any (fun x => match x with | Json.str t => t == key | _ => false))
  | _ => .error .typeError

/-- Python `d[key] = v` on a dict: overwrite the key if present,
append it otherwise. -/
def dictSet (kvs : List (String × Json)) (key : String) (v : Json) :
    List (String × Json) :=
  if kvs.any (fun p => p.1 == key) then
    kvs.map (fun p => if p.1 == key then (key, v) else p)
  else kvs ++ [(key, v)]

/-- Python equality of a parsed value against a string literal: only a
string value can compare equal to a string. -/
def jsonEqStr (v : Json) (s : String) : Bool :=
  match v with
  | Json.str t => t == s
  | _ => false

/-- The configuration of `myst_to_notebook`: the two directive names, the
line-tracking flag, and the two external parsers the scan invokes
(`parse_directive_text` returning (options, body lines), and `json.loads`). -/
structure Config where
  code_directive : String
  raw_directive : String
  store_line_numbers : Bool
  parseDirectiveText : String → Except String (List (String × Json) × List String)
  jsonLoads : String → Except String Json

/-- `read_fenced_cell`: run the directive option parser on the fence token's
content; on failure raise `MystMetadataParsingError` naming the cell type,
the cell index and the 1-based source line of the opening fence. -/
def read_fenced_cell (pdt : String → Except String (List (String × Json) × List String))
    (token : Token) (cell_index : Nat) (cell_type : String) :
    Except PyErr (List (String × Json) × List String) :=
  match pdt token.content with
  | .error err =>
    .error (.mystMetadataParsingError
      (cell_type ++ " cell " ++ toString cell_index ++ " at line " ++
        toString (token.map.1 + 1) ++ " could not be read: " ++ err))
  | .ok r => .ok r

/-- `read_cell_metadata`: empty content gives the empty dict; otherwise the
stripped content is parsed as JSON, and a parse failure or a non-dict result
raises `MystMetadataParsingError` naming the markdown cell index and the
1-based source line. -/
def read_cell_metadata (jsonLoads : String → Except String Json)
    (token : Token) (cell_index : Nat) :
    Except PyErr (List (String × Json)) :=
  if token.content = "" then .ok []
  else
    match jsonLoads (pyStrip token.content) with
    | .error err =>
      .error (.mystMetadataParsingError
        ("Markdown cell " ++ toString cell_index ++ " at line " ++
          toString (token.map.1 + 1) ++ " could not be read: " ++ err))
    | .ok (Json.obj kvs) => .ok kvs
    | .ok _ =>
      .error (.mystMetadataParsingError
        ("Markdown cell " ++ toString cell_index ++ " at line " ++
          toString (token.map.1 + 1) ++ " is not a dict"))

/-- `is_myst_notebook`: dialect detection.  `lines` is
`inputstring.splitlines()`; `yamlLoad` is the external `yaml.safe_load`,
whose errors (malformed YAML) propagate uncaught.  Absent front matter or a
front matter whose `jupytext.text_representation.format_name` is not
`"myst"` gives `false`; a matching format without `kernelspec.name` or
`kernelspec.display_name` raises `IOError`. -/
def is_myst_notebook (yamlLoad : String → Except String Json)
    (lines : List String) : Except PyErr Bool :=
  match lines with
  | [] => .ok false
  | l0 :: rest =>
    if pyStartsWith l0 "---" = false then .ok false
    else
      let yaml_lines := rest.takeWhile
        (fun l => !(pyStartsWith l "---" || pyStartsWith l "..."))
      match yamlLoad (joinNl yaml_lines) with
      | .error e => .error (.yamlError e)
      | .ok front_matter =>
        (pyGet front_matter "jupytext" (Json.obj [])).bind fun jt =>
        (pyGet jt "text_representation" (Json.obj [])).bind fun tr =>
        (pyGet tr "format_name" Json.null).bind fun fn =>
        if jsonEqStr fn "myst" = false then Except.ok false
        else
          (pyGet front_matter "kernelspec" (Json.obj [])).bind fun ks =>
          (pyContains ks "name").bind fun hasName =>
          if hasName = false then
            Except.error (.ioError
              ("A myst notebook text-representation requires " ++
                "kernelspec/name metadata"))
          else
            (pyGet front_matter "kernelspec" (Json.obj [])).bind fun ks2 =>
            (pyContains ks2 "display_name").bind fun hasDn =>
            if hasDn = false then
              Except.error (.ioError
                ("A myst notebook text-representation requires " ++
                  "kernelspec/display_name metadata"))
            else Except.ok true

/-- The state threaded through the token scan of `myst_to_notebook`:
nesting level, pending markdown metadata, markdown start line, and the
cells appended so far (in order). -/
structure ScanState where
  nesting_level : Int
  md_metadata : List (String × Json)
  md_start_line : Nat
  cells : List Cell

/-- `_flush_markdown`: slice the source lines from `start_line` up to the
terminating token's start line (or end of document), trim with
`strip_blank_lines`, and produce a markdown cell only when the trimmed
source is non-empty. -/
def flush_markdown (cfg : Config) (lines : List String) (start_line : Nat)
    (tok : Option Token) (md_metadata : List (String × Json)) : Option Cell :=
  let endline := match tok with | some t => t.map.1 | none => lines.length
  let md_source := strip_blank_lines (joinNl (pySlice lines start_line endline))
  let meta :=
    if cfg.store_line_numbers then
      dictSet md_metadata "_source_lines"
        (Json.arr [Json.num (Int.ofNat start_line), Json.num (Int.ofNat endline)])
    else md_metadata
  if md_source = "" then none
  else some { cell_type := .markdown, source := md_source, metadata := meta }

/-- The cell list after a markdown flush: the optional markdown cell is
appended to the cells produced so far. -/
def flushAppend (cfg : Config) (lines : List String) (start_line : Nat)
    (tok : Option Token) (md_metadata : List (String × Json))
    (cells : List Cell) : List Cell :=
  cells ++ (flush_markdown cfg lines start_line tok md_metadata).toList

/-- Does the token open a code cell (`token.type == "fence"` and
`token.info.startswith(code_directive)`)? -/
def isCodeFence (cfg : Config) (t : Token) : Bool :=
  t.type == "fence" && pyStartsWith t.info cfg.code_directive

/-- Does the token open a raw cell? -/
def isRawFence (cfg : Config) (t : Token) : Bool :=
  t.type == "fence" && pyStartsWith t.info cfg.raw_directive

/-- Is the token a document break (`myst_block_break`)? -/
def isBreakTok (t : Token) : Bool :=
  t.type == "myst_block_break"

/-- One step of the token scan of `myst_to_notebook`: update the nesting
level; skip the token when the level is non-zero; otherwise classify it as
code fence, raw fence, document break, or other. -/
def processToken (cfg : Config) (lines : List String) (s : ScanState)
    (t : Token) : Except PyErr ScanState :=
  let nl := s.nesting_level + t.nesting
  if nl ≠ 0 then .ok { s with nesting_level := nl }
  else if isCodeFence cfg t then
    let cells1 := flushAppend cfg lines s.md_start_line (some t) s.md_metadata s.cells
    match read_fenced_cell cfg.parseDirectiveText t cells1.length "Code" with
    | .error e => .error e
    | .ok (options, body_lines) =>
      let meta :=
        if cfg.store_line_numbers then
          dictSet options "_source_lines"
            (Json.arr [Json.num (Int.ofNat (t.map.1 + 1)), Json.num (Int.ofNat t.map.2)])
        else options
      .ok { nesting_level := nl, md_metadata := [], md_start_line := t.map.2,
            cells := cells1 ++
              [{ cell_type := .code, source := joinNl body_lines, metadata := meta }] }
  else if isRawFence cfg t then
    let cells1 := flushAppend cfg lines s.md_start_line (some t) s.md_metadata s.cells
    match read_fenced_cell cfg.parseDirectiveText t cells1.length "Raw" with
    | .error e => .error e
    | .ok (options, body_lines) =>
      let meta :=
        if cfg.store_line_numbers then
          dictSet options "_source_lines"
            (Json.arr [Json.num (Int.ofNat (t.map.1 + 1)), Json.num (Int.ofNat t.map.2)])
        else options
      .ok { nesting_level := nl, md_metadata := [], md_start_line := t.map.2,
            cells := cells1 ++
              [{ cell_type := .raw, source := joinNl body_lines, metadata := meta }] }
  else if isBreakTok t then
    let cells1 := flushAppend cfg lines s.md_start_line (some t) s.md_metadata s.cells
    match read_cell_metadata cfg.jsonLoads t cells1.length with
    | .error e => .error e
    | .ok m =>
      .ok { nesting_level := nl, md_metadata := m, md_start_line := t.map.2,
            cells := cells1 }
  else .ok { s with nesting_level := nl }

/-- The token scan: fold `processToken` over the stream, stopping at the
first raised error. -/
def scanTokens (cfg : Config) (lines : List String) :
    ScanState → List Token → Except PyErr ScanState
  | s, [] => .ok s
  | s, t :: ts =>
    match processToken cfg lines s t with
    | .error e => .error e
    | .ok s1 => scanTokens cfg lines s1 ts

/-- `myst_to_notebook`: `lines` is `text.splitlines()` and `tokens` the
external block tokenizer's output on `text + "\n"`; `yamlLoad` models
`yaml.safe_load` for the front-matter block.  `tokens[0]` raises
`IndexError` on an empty stream; a leading front-matter token is popped and
parsed (a YAML parse error becomes `MystMetadataParsingError`); the
remaining tokens are scanned and a final markdown flush closes the
document. -/
def myst_to_notebook (cfg : Config) (yamlLoad : String → Except String Json)
    (lines : List String) (tokens : List Token) : Except PyErr Notebook :=
  match tokens with
  | [] => .error .indexError
  | t0 :: rest =>
    let fm := t0.type == "front_matter"
    let scanToks := if fm then rest else t0 :: rest
    let md_start0 := if fm then t0.map.2 else 0
    (if fm then
      match yamlLoad t0.content with
      | .error e => Except.error (PyErr.mystMetadataParsingError ("Notebook metadata: " ++ e))
      | .ok m => Except.ok m
     else Except.ok (Json.obj [])).bind fun metadata_nb =>
    (scanTokens cfg lines
        { nesting_level := 0, md_metadata := [], md_start_line := md_start0,
          cells := [] } scanToks).bind fun sFinal =>
    Except.ok
      { metadata := metadata_nb,
        cells := flushAppend cfg lines sFinal.md_start_line none
          sFinal.md_metadata sFinal.cells }

/-- The number of leading newline characters removed by `strip_blank_lines`
after the right strip. -/
def leadNlCount (s : String) : Nat :=
  ((pyRstrip s).data.takeWhile (fun c => c == '\n')).length

/-- The trailing whitespace removed by `pyRstrip`. -/
def trailWs (s : String) : List Char :=
  (s.data.reverse.takeWhile isPySpace).reverse

/-- Does the token open a code or raw directive fence? -/
def isDirectiveFence (cfg : Config) (t : Token) : Bool :=
  isCodeFence cfg t || isRawFence cfg t

/-- Is the token one of the three structural markers of the scan
(code fence, raw fence, document break)? -/
def isStructural (cfg : Config) (t : Token) : Bool :=
  isDirectiveFence cfg t || isBreakTok t

/-- The cell type a directive fence produces (the code branch is tested
first, exactly as in the if/elif chain of the scan). -/
def fenceCellType (cfg : Config) (t : Token) : CellType :=
  if isCodeFence cfg t then CellType.code else CellType.raw

/-- The tokens of a stream that are processed at nesting level exactly 0
(counted after adding each token's nesting delta, starting from `n`) and
satisfy `p`. -/
def activeFilter (p : Token → Bool) : Int → List Token → List Token
  | _, [] => []
  | n, t :: ts =>
    if n + t.nesting = 0 ∧ p t = true then t :: activeFilter p (n + t.nesting) ts
    else activeFilter p (n + t.nesting) ts

/-- The cell types of the non-markdown cells of a cell list, in order. -/
def codeRawTypes (cells : List Cell) : List CellType :=
  cells.filterMap (fun c =>
    if c.cell_type = CellType.markdown then none else some c.cell_type)

/-- The observable (type, source) shape of a conversion result. -/
def cellShapes (r : Except PyErr Notebook) : Except PyErr (List (CellType × String)) :=
  r.map (fun nb => nb.cells.map (fun c => (c.cell_type, c.source)))

/-- The sum of the nesting deltas of a token stream. -/
def sumNesting (ts : List Token) : Int :=
  (ts.map Token.nesting).sum

/-- The end line used by a markdown flush: the terminating token's start
line, or the end of the document. -/
def flushEndline (lines : List String) (tok : Option Token) : Nat :=
  match tok with
  | some t => t.map.1
  | none => lines.length

/-- The invariant of every markdown cell the conversion appends: non-empty
source that does not start with a newline and does not end in whitespace. -/
def mdSourceOk (c : Cell) : Prop :=
  c.cell_type = CellType.markdown →
    c.source ≠ "" ∧ c.source.data.head? ≠ some '\n' ∧
      Option.all (fun ch => !(isPySpace ch)) c.source.data.getLast? = true

/-- A sample configuration: the default directive names, no line tracking,
an option parser that accepts everything with no options, and a JSON parser
that rejects everything. -/
def sampleCfg : Config :=
  { code_directive := "{code-cell}", raw_directive := "{raw-cell}",
    store_line_numbers := false,
    parseDirectiveText := fun _ => .ok ([], []),
    jsonLoads := fun _ => .error "jerr" }

/-- A sample YAML parser that returns `None` for everything. -/
def sampleYaml : String → Except String Json := fun _ => .ok Json.null

/-- A list-opening token (nesting +1). -/
def tokListOpen : Token :=
  { type := "bullet_list_open", nesting := 1, info := "", content := "",
    map := (0, 2) }

/-- A code-cell directive fence nested inside the list. -/
def tokNestedFence : Token :=
  { type := "fence", nesting := 0, info := "{code-cell}", content := "nested",
    map := (1, 2) }

/-- The list-closing token (nesting −1). -/
def tokListClose : Token :=
  { type := "bullet_list_close", nesting := -1, info := "", content := "",
    map := (0, 2) }

/-- A top-level code-cell directive fence. -/
def tokTopFence : Token :=
  { type := "fence", nesting := 0, info := "{code-cell} python",
    content := "pass", map := (3, 5) }

/-- The token stream for the C1 witness: a directive fence nested in a
list, then a top-level directive fence. -/
def c1Tokens : List Token :=
  [tokListOpen, tokNestedFence, tokListClose, tokTopFence]

/-- The scan state the C1 witness stream produces. -/
def c1Final : ScanState :=
  { nesting_level := 0, md_metadata := [], md_start_line := 5,
    cells := [{ cell_type := CellType.code, source := "", metadata := [] }] }

/-- The trimming named by the spec's words for claim C2, "the
whitespace-trimmed input": Python `text.strip()` of the joined source
lines.  Stated from the spec for comparison with what the code computes
(`strip_blank_lines`). -/
def whitespaceTrimmedInput (lines : List String) : String :=
  pyStrip (joinNl lines)

/-- A paragraph-opening token (nesting +1). -/
def tokParaOpen : Token :=
  { type := "paragraph_open", nesting := 1, info := "", content := "",
    map := (0, 1) }

/-- The paragraph's inline-content token. -/
def tokParaInline : Token :=
  { type := "inline", nesting := 0, info := "", content := " foo",
    map := (0, 1) }

/-- The paragraph-closing token (nesting −1). -/
def tokParaClose : Token :=
  { type := "paragraph_close", nesting := -1, info := "", content := "",
    map := (0, 1) }

/-- The token stream of the single paragraph " foo". -/
def c2Tokens : List Token := [tokParaOpen, tokParaInline, tokParaClose]

/-- A document break whose content is empty. -/
def tokBreakEmpty : Token :=
  { type := "myst_block_break", nesting := 0, info := "", content := "",
    map := (4, 5) }

/-- A document break carrying malformed JSON content. -/
def tokBreakBad : Token :=
  { type := "myst_block_break", nesting := 0, info := "", content := "{bad,}",
    map := (0, 1) }

/-- A JSON parser that returns a non-object value for everything. -/
def jsonLoadsNum : String → Except String Json := fun _ => .ok (Json.num 5)

/-- Is the result the fatal metadata error kind
(`MystMetadataParsingError`)? -/
def isMystMetaErr (r : Except PyErr Bool) : Bool :=
  match r with
  | .error (.mystMetadataParsingError _) => true
  | _ => false

/-- A YAML parser returning front matter whose
`jupytext.text_representation.format_name` is "myst" and which has no
kernelspec block. -/
def c5Yaml : String → Except String Json := fun _ =>
  .ok (Json.obj [("jupytext", Json.obj [("text_representation",
    Json.obj [("format_name", Json.str "myst")])])])

/-- A YAML parser that fails on everything (malformed front matter). -/
def c6Yaml : String → Except String Json := fun _ => .error "bad yaml"

/-- A front-matter token whose YAML body is malformed. -/
def tokFrontMatterBad : Token :=
  { type := "front_matter", nesting := 0, info := "", content := "a: [",
    map := (0, 3) }

/-- A blank line in the sense of the spec's words: empty or
whitespace-only. -/
def isBlankLine (l : String) : Bool :=
  l.data.all isPySpace

/-- The trimming named by the spec's words for claim C8 — "strip all
trailing blank lines and all leading blank lines" of the sliced lines —
stated from the spec for comparison with what the code computes
(`strip_blank_lines` of the joined slice). -/
def specTrimBlankLines (ls : List String) : String :=
  joinNl (((ls.dropWhile isBlankLine).reverse.dropWhile isBlankLine).reverse)

/-- The text a markdown flush trims: the joined slice of the source lines
from the start line up to the terminating token's start line (or the end
of the document). -/
def flushSliceText (lines : List String) (start_line : Nat)
    (tok : Option Token) : String :=
  joinNl (pySlice lines start_line (flushEndline lines tok))

/-- A non-structural top-level token spanning the line "hi". -/
def tokHtml : Token :=
  { type := "html_block", nesting := 0, info := "", content := "hi",
    map := (0, 1) }
/-! ## Properties of the trimming helpers -/

/-- The head of a `dropWhile` result never satisfies the dropped predicate. -/
theorem head_dropWhile_false {α : Type} (p : α → Bool) :
    ∀ (l : List α) (c : α), (l.dropWhile p).head? = some c → p c = false := by
  intro l
  induction l with
  | nil => intro c h; simp [List.dropWhile] at h
  | cons x xs ih =>
    intro c h
    by_cases hx : p x
    · rw [List.dropWhile_cons_of_pos hx] at h
      exact ih c h
    · rw [List.dropWhile_cons_of_neg hx] at h
      simp at h
      rw [← h]
      exact Bool.not_eq_true (p x) |>.mp hx

/-- Appending on the left does not change `getLast?` of a non-empty list. -/
theorem getLast_append_right {α : Type} (a : List α) :
    ∀ (b : List α), b ≠ [] → (a ++ b).getLast? = b.getLast? := by
  induction a with
  | nil => intro b _; rfl
  | cons x xs ih =>
    intro b hb
    rw [List.cons_append, List.getLast?_cons, ih b hb]
    cases b with
    | nil => exact absurd rfl hb
    | cons y ys => simp [List.getLast?_cons]

/-- `pyRstrip` decomposition: the input is the stripped text followed by the
removed trailing whitespace, and everything removed is whitespace. -/
theorem pyRstrip_decomp (s : String) :
    s.data = (pyRstrip s).data ++ trailWs s ∧
      ∀ c ∈ trailWs s, isPySpace c = true := by
  constructor
  · have h := List.takeWhile_append_dropWhile isPySpace s.data.reverse
    have h2 := congrArg List.reverse h
    rw [List.reverse_append, List.reverse_reverse] at h2
    conv_lhs => rw [← h2]
    rfl
  · intro c hc
    have : c ∈ s.data.reverse.takeWhile isPySpace := by
      simpa [trailWs] using hc
    exact List.mem_takeWhile_imp this

/-- `strip_blank_lines` decomposition: the input text is some leading newline
characters, then the trimmed text, then trailing whitespace. -/
theorem strip_blank_lines_decomp (s : String) :
    s.data = List.replicate (leadNlCount s) '\n' ++
        (strip_blank_lines s).data ++ trailWs s ∧
      ∀ c ∈ trailWs s, isPySpace c = true := by
  refine ⟨?_, (pyRstrip_decomp s).2⟩
  have h1 := (pyRstrip_decomp s).1
  have h2 := List.takeWhile_append_dropWhile (fun c => c == '\n') (pyRstrip s).data
  have h3 : (pyRstrip s).data.takeWhile (fun c => c == '\n') =
      List.replicate (leadNlCount s) '\n' := by
    have := List.eq_replicate_of_mem
      (l := (pyRstrip s).data.takeWhile (fun c => c == '\n')) (a := '\n') ?_
    · exact this
    · intro b hb
      have := List.mem_takeWhile_imp hb
      simpa using this
  rw [h1, ← h2, h3]
  rfl

/-- A non-empty `strip_blank_lines` result does not start with a newline. -/
theorem strip_blank_lines_head (s : String) (c : Char)
    (h : (strip_blank_lines s).data.head? = some c) : ¬ c = '\n' := by
  have hf := head_dropWhile_false (fun c => c == '\n') (pyRstrip s).data c h
  simpa using hf

/-- A non-empty `strip_blank_lines` result ends in a non-whitespace
character: the right strip removed all trailing whitespace and removing
leading newlines preserves the last character. -/
theorem strip_blank_lines_last (s : String) (c : Char)
    (h : (strip_blank_lines s).data.getLast? = some c) : isPySpace c = false := by
  have hR : (pyRstrip s).data.getLast? = some c := by
    have hsplit := List.takeWhile_append_dropWhile (fun c => c == '\n') (pyRstrip s).data
    have hdata : (strip_blank_lines s).data =
        (pyRstrip s).data.dropWhile (fun c => c == '\n') := rfl
    have hne : (pyRstrip s).data.dropWhile (fun c => c == '\n') ≠ [] := by
      intro hnil
      rw [hdata, hnil] at h
      simp at h
    have hgl := getLast_append_right
      ((pyRstrip s).data.takeWhile (fun c => c == '\n'))
      ((pyRstrip s).data.dropWhile (fun c => c == '\n')) hne
    rw [hsplit] at hgl
    rw [hgl, ← hdata]
    exact h
  have hrev : ((s.data.reverse.dropWhile isPySpace).reverse).getLast? = some c := hR
  rw [List.getLast?_reverse] at hrev
  exact head_dropWhile_false isPySpace _ c hrev

/-! ## The scan state machine: step lemmas -/

/-- A break token is not a fence token. -/
theorem breakTok_not_fence (cfg : Config) (t : Token) (h : isBreakTok t = true) :
    isCodeFence cfg t = false ∧ isRawFence cfg t = false := by
  have ht : t.type = "myst_block_break" := by
    simpa [isBreakTok] using h
  constructor <;> simp [isCodeFence, isRawFence, ht]

/-- Step lemma: a token processed at non-zero nesting only updates the
nesting level; the cells, the pending metadata and the markdown start line
are untouched, so its lines fold into the enclosing markdown run. -/
theorem processToken_inactive (cfg : Config) (lines : List String)
    (s : ScanState) (t : Token) (h : s.nesting_level + t.nesting ≠ 0) :
    processToken cfg lines s t =
      .ok { s with nesting_level := s.nesting_level + t.nesting } := by
  simp only [processToken]
  rw [if_pos h]

/-- Step lemma: a non-structural token at nesting 0 only updates the
nesting level. -/
theorem processToken_other (cfg : Config) (lines : List String)
    (s : ScanState) (t : Token) (h0 : s.nesting_level + t.nesting = 0)
    (hc : isCodeFence cfg t = false) (hr : isRawFence cfg t = false)
    (hb : isBreakTok t = false) :
    processToken cfg lines s t =
      .ok { s with nesting_level := s.nesting_level + t.nesting } := by
  simp only [processToken]
  rw [if_neg (by simp [h0]), hc, hr, hb]
  simp

/-- Step lemma: a top-level code fence whose options parse; the markdown
run is flushed, a code cell is appended, the pending metadata is cleared
and the markdown cursor jumps to the fence's end line. -/
theorem processToken_code (cfg : Config) (lines : List String)
    (s : ScanState) (t : Token) (options : List (String × Json))
    (body_lines : List String)
    (h0 : s.nesting_level + t.nesting = 0) (hc : isCodeFence cfg t = true)
    (hp : read_fenced_cell cfg.parseDirectiveText t
      (flushAppend cfg lines s.md_start_line (some t) s.md_metadata s.cells).length
      "Code" = .ok (options, body_lines)) :
    processToken cfg lines s t =
      .ok { nesting_level := s.nesting_level + t.nesting, md_metadata := [],
            md_start_line := t.map.2,
            cells :=
              flushAppend cfg lines s.md_start_line (some t) s.md_metadata s.cells ++
                [{ cell_type := .code, source := joinNl body_lines,
                   metadata :=
                     if cfg.store_line_numbers then
                       dictSet options "_source_lines"
                         (Json.arr [Json.num (Int.ofNat (t.map.1 + 1)),
                           Json.num (Int.ofNat t.map.2)])
                     else options }] } := by
  simp only [processToken]
  rw [if_neg (by simp [h0]), hc]
  simp only [if_true, hp]

/-- Step lemma: a top-level code fence whose options fail to parse raises
the error of `read_fenced_cell`. -/
theorem processToken_code_err (cfg : Config) (lines : List String)
    (s : ScanState) (t : Token) (e : PyErr)
    (h0 : s.nesting_level + t.nesting = 0) (hc : isCodeFence cfg t = true)
    (hp : read_fenced_cell cfg.parseDirectiveText t
      (flushAppend cfg lines s.md_start_line (some t) s.md_metadata s.cells).length
      "Code" = .error e) :
    processToken cfg lines s t = .error e := by
  simp only [processToken]
  rw [if_neg (by simp [h0]), hc]
  simp only [if_true, hp]

/-- Step lemma: a top-level raw fence (that is not a code fence) whose
options parse. -/
theorem processToken_raw (cfg : Config) (lines : List String)
    (s : ScanState) (t : Token) (options : List (String × Json))
    (body_lines : List String)
    (h0 : s.nesting_level + t.nesting = 0) (hc : isCodeFence cfg t = false)
    (hr : isRawFence cfg t = true)
    (hp : read_fenced_cell cfg.parseDirectiveText t
      (flushAppend cfg lines s.md_start_line (some t) s.md_metadata s.cells).length
      "Raw" = .ok (options, body_lines)) :
    processToken cfg lines s t =
      .ok { nesting_level := s.nesting_level + t.nesting, md_metadata := [],
            md_start_line := t.map.2,
            cells :=
              flushAppend cfg lines s.md_start_line (some t) s.md_metadata s.cells ++
                [{ cell_type := .raw, source := joinNl body_lines,
                   metadata :=
                     if cfg.store_line_numbers then
                       dictSet options "_source_lines"
                         (Json.arr [Json.num (Int.ofNat (t.map.1 + 1)),
                           Json.num (Int.ofNat t.map.2)])
                     else options }] } := by
  simp only [processToken]
  rw [if_neg (by simp [h0]), hc, hr]
  simp only [if_true, Bool.false_eq_true, if_false, hp]

/-- Step lemma: a top-level raw fence whose options fail to parse raises
the error of `read_fenced_cell`. -/
theorem processToken_raw_err (cfg : Config) (lines : List String)
    (s : ScanState) (t : Token) (e : PyErr)
    (h0 : s.nesting_level + t.nesting = 0) (hc : isCodeFence cfg t = false)
    (hr : isRawFence cfg t = true)
    (hp : read_fenced_cell cfg.parseDirectiveText t
      (flushAppend cfg lines s.md_start_line (some t) s.md_metadata s.cells).length
      "Raw" = .error e) :
    processToken cfg lines s t = .error e := by
  simp only [processToken]
  rw [if_neg (by simp [h0]), hc, hr]
  simp only [if_true, Bool.false_eq_true, if_false, hp]

/-- Step lemma: a top-level document break whose metadata parses; the
markdown run is flushed and the parsed metadata becomes the pending
metadata of the next markdown cell. -/
theorem processToken_break_ok (cfg : Config) (lines : List String)
    (s : ScanState) (t : Token) (m : List (String × Json))
    (h0 : s.nesting_level + t.nesting = 0) (hb : isBreakTok t = true)
    (hp : read_cell_metadata cfg.jsonLoads t
      (flushAppend cfg lines s.md_start_line (some t) s.md_metadata s.cells).length
      = .ok m) :
    processToken cfg lines s t =
      .ok { nesting_level := s.nesting_level + t.nesting, md_metadata := m,
            md_start_line := t.map.2,
            cells := flushAppend cfg lines s.md_start_line (some t)
              s.md_metadata s.cells } := by
  obtain ⟨hc, hr⟩ := breakTok_not_fence cfg t hb
  simp only [processToken]
  rw [if_neg (by simp [h0]), hc, hr, hb]
  simp only [Bool.false_eq_true, if_false, if_true, hp]

/-- Step lemma: a top-level document break whose metadata fails to parse
raises the error of `read_cell_metadata`. -/
theorem processToken_break_err (cfg : Config) (lines : List String)
    (s : ScanState) (t : Token) (e : PyErr)
    (h0 : s.nesting_level + t.nesting = 0) (hb : isBreakTok t = true)
    (hp : read_cell_metadata cfg.jsonLoads t
      (flushAppend cfg lines s.md_start_line (some t) s.md_metadata s.cells).length
      = .error e) :
    processToken cfg lines s t = .error e := by
  obtain ⟨hc, hr⟩ := breakTok_not_fence cfg t hb
  simp only [processToken]
  rw [if_neg (by simp [h0]), hc, hr, hb]
  simp only [Bool.false_eq_true, if_false, if_true, hp]

/-- The scan of a token list starting with a successfully processed token. -/
theorem scanTokens_cons_ok (cfg : Config) (lines : List String)
    (s s1 : ScanState) (t : Token) (ts : List Token)
    (h : processToken cfg lines s t = .ok s1) :
    scanTokens cfg lines s (t :: ts) = scanTokens cfg lines s1 ts := by
  simp only [scanTokens, h]

/-- The scan stops at the first raised error: no token after the failure
point is processed and no further cell is produced. -/
theorem scanTokens_cons_err (cfg : Config) (lines : List String)
    (s : ScanState) (t : Token) (ts : List Token) (e : PyErr)
    (h : processToken cfg lines s t = .error e) :
    scanTokens cfg lines s (t :: ts) = .error e := by
  simp only [scanTokens, h]

/-! ## Flush lemmas -/

/-- Unfolding equation for `flush_markdown`. -/
theorem flush_markdown_eq (cfg : Config) (lines : List String)
    (start_line : Nat) (tok : Option Token) (md : List (String × Json)) :
    flush_markdown cfg lines start_line tok md =
      (if strip_blank_lines (joinNl (pySlice lines start_line
          (flushEndline lines tok))) = "" then none
       else some
        { cell_type := .markdown,
          source := strip_blank_lines (joinNl (pySlice lines start_line
            (flushEndline lines tok))),
          metadata :=
            if cfg.store_line_numbers then
              dictSet md "_source_lines"
                (Json.arr [Json.num (Int.ofNat start_line),
                  Json.num (Int.ofNat (flushEndline lines tok))])
            else md }) := rfl

/-- A flushed markdown cell is a markdown cell with the trimmed slice as
its non-empty source. -/
theorem flush_markdown_some (cfg : Config) (lines : List String)
    (start_line : Nat) (tok : Option Token) (md : List (String × Json))
    (c : Cell) (h : flush_markdown cfg lines start_line tok md = some c) :
    c.cell_type = .markdown ∧
      c.source = strip_blank_lines (joinNl (pySlice lines start_line
        (flushEndline lines tok))) ∧
      c.source ≠ "" := by
  rw [flush_markdown_eq] at h
  by_cases he : strip_blank_lines (joinNl (pySlice lines start_line
      (flushEndline lines tok))) = ""
  · rw [if_pos he] at h
    exact absurd h (by simp)
  · rw [if_neg he] at h
    have hc := Option.some.inj h
    subst hc
    exact ⟨rfl, rfl, he⟩

/-- `codeRawTypes` distributes over append. -/
theorem codeRawTypes_append (a b : List Cell) :
    codeRawTypes (a ++ b) = codeRawTypes a ++ codeRawTypes b :=
  List.filterMap_append a b _

/-- A markdown flush never adds to the code/raw cell types. -/
theorem codeRawTypes_flushAppend (cfg : Config) (lines : List String)
    (start_line : Nat) (tok : Option Token) (md : List (String × Json))
    (cells : List Cell) :
    codeRawTypes (flushAppend cfg lines start_line tok md cells) =
      codeRawTypes cells := by
  unfold flushAppend
  rw [codeRawTypes_append]
  cases h : flush_markdown cfg lines start_line tok md with
  | none => simp [codeRawTypes]
  | some c =>
    have hm := (flush_markdown_some cfg lines start_line tok md c h).1
    simp [codeRawTypes, hm]

/-- The cells after a markdown flush extend the cells before it. -/
theorem flushAppend_prefix (cfg : Config) (lines : List String)
    (start_line : Nat) (tok : Option Token) (md : List (String × Json))
    (cells : List Cell) :
    ∃ extra, flushAppend cfg lines start_line tok md cells = cells ++ extra :=
  ⟨(flush_markdown cfg lines start_line tok md).toList, rfl⟩

/-- Unfolding of `activeFilter` at a token that counts. -/
theorem activeFilter_cons_pos (p : Token → Bool) (n : Int) (t : Token)
    (ts : List Token) (h1 : n + t.nesting = 0) (h2 : p t = true) :
    activeFilter p n (t :: ts) = t :: activeFilter p (n + t.nesting) ts := by
  simp only [activeFilter]
  rw [if_pos (And.intro h1 h2)]

/-- Unfolding of `activeFilter` at a token that does not count. -/
theorem activeFilter_cons_neg (p : Token → Bool) (n : Int) (t : Token)
    (ts : List Token) (h : ¬(n + t.nesting = 0 ∧ p t = true)) :
    activeFilter p n (t :: ts) = activeFilter p (n + t.nesting) ts := by
  simp only [activeFilter]
  rw [if_neg h]

/-! ## The cell-extraction invariant (claim C1 core) -/

/-- Scanning a token stream appends exactly one code/raw cell for each
directive fence token processed at nesting level 0, in stream order, with
the cell type decided by which directive name prefixes the info string. -/
theorem scan_codeRawTypes (cfg : Config) (lines : List String) :
    ∀ (ts : List Token) (s s' : ScanState),
      scanTokens cfg lines s ts = .ok s' →
      codeRawTypes s'.cells = codeRawTypes s.cells ++
        (activeFilter (isDirectiveFence cfg) s.nesting_level ts).map
          (fenceCellType cfg) := by
  intro ts
  induction ts with
  | nil =>
    intro s s' h
    have hs : s = s' := by simpa [scanTokens] using h
    rw [← hs]
    simp [activeFilter]
  | cons t ts ih =>
    intro s s' h
    by_cases hn : s.nesting_level + t.nesting = 0
    · by_cases hcf : isCodeFence cfg t = true
      · -- code fence at top level
        cases hp : read_fenced_cell cfg.parseDirectiveText t
            (flushAppend cfg lines s.md_start_line (some t) s.md_metadata
              s.cells).length "Code" with
        | error e =>
          rw [scanTokens_cons_err cfg lines s t ts e
            (processToken_code_err cfg lines s t e hn hcf hp)] at h
          exact absurd h (by simp)
        | ok r =>
          obtain ⟨options, body_lines⟩ := r
          rw [scanTokens_cons_ok cfg lines s _ t ts
            (processToken_code cfg lines s t options body_lines hn hcf hp)] at h
          have hrec := ih _ s' h
          simp only at hrec
          have hd : isDirectiveFence cfg t = true := by
            simp [isDirectiveFence, hcf]
          rw [hrec, codeRawTypes_append, codeRawTypes_flushAppend,
            activeFilter_cons_pos (isDirectiveFence cfg) s.nesting_level t ts hn hd,
            List.map_cons]
          have hf : fenceCellType cfg t = CellType.code := by
            simp [fenceCellType, hcf]
          simp [codeRawTypes, hf]
      · by_cases hrf : isRawFence cfg t = true
        · -- raw fence at top level
          cases hp : read_fenced_cell cfg.parseDirectiveText t
              (flushAppend cfg lines s.md_start_line (some t) s.md_metadata
                s.cells).length "Raw" with
          | error e =>
            rw [scanTokens_cons_err cfg lines s t ts e
              (processToken_raw_err cfg lines s t e hn
                (by simpa using hcf) hrf hp)] at h
            exact absurd h (by simp)
          | ok r =>
            obtain ⟨options, body_lines⟩ := r
            rw [scanTokens_cons_ok cfg lines s _ t ts
              (processToken_raw cfg lines s t options body_lines hn
                (by simpa using hcf) hrf hp)] at h
            have hrec := ih _ s' h
            simp only at hrec
            have hd : isDirectiveFence cfg t = true := by
              simp [isDirectiveFence, hrf]
            rw [hrec, codeRawTypes_append, codeRawTypes_flushAppend,
              activeFilter_cons_pos (isDirectiveFence cfg) s.nesting_level t ts hn hd,
              List.map_cons]
            have hf : fenceCellType cfg t = CellType.raw := by
              simp [fenceCellType, hcf]
            simp [codeRawTypes, hf]
        · have hd : isDirectiveFence cfg t = false := by
            simp only [isDirectiveFence, Bool.or_eq_false_iff]
            exact ⟨by simpa using hcf, by simpa using hrf⟩
          have hskip : ¬(s.nesting_level + t.nesting = 0 ∧
              isDirectiveFence cfg t = true) := by
            intro hcon
            rw [hd] at hcon
            exact Bool.noConfusion hcon.2
          by_cases hbt : isBreakTok t = true
          · -- document break at top level
            cases hp : read_cell_metadata cfg.jsonLoads t
                (flushAppend cfg lines s.md_start_line (some t) s.md_metadata
                  s.cells).length with
            | error e =>
              rw [scanTokens_cons_err cfg lines s t ts e
                (processToken_break_err cfg lines s t e hn hbt hp)] at h
              exact absurd h (by simp)
            | ok m =>
              rw [scanTokens_cons_ok cfg lines s _ t ts
                (processToken_break_ok cfg lines s t m hn hbt hp)] at h
              have hrec := ih _ s' h
              simp only at hrec
              rw [hrec, codeRawTypes_flushAppend,
                activeFilter_cons_neg (isDirectiveFence cfg) s.nesting_level t ts hskip]
          · -- other token at top level
            rw [scanTokens_cons_ok cfg lines s _ t ts
              (processToken_other cfg lines s t hn (by simpa using hcf)
                (by simpa using hrf) (by simpa using hbt))] at h
            have hrec := ih _ s' h
            simp only at hrec
            rw [hrec,
              activeFilter_cons_neg (isDirectiveFence cfg) s.nesting_level t ts hskip]
    · -- nested token: invisible to cell extraction
      rw [scanTokens_cons_ok cfg lines s _ t ts
        (processToken_inactive cfg lines s t hn)] at h
      have hrec := ih _ s' h
      simp only at hrec
      rw [hrec,
        activeFilter_cons_neg (isDirectiveFence cfg) s.nesting_level t ts
          (fun hcon => hn hcon.1)]

/-! ## Scans without structural tokens (claim C2 core) -/

/-- A scan that meets no top-level structural token (directive fence or
document break) only tracks nesting: it produces no cell, keeps the pending
metadata and never moves the markdown start line. -/
theorem scan_no_structural (cfg : Config) (lines : List String) :
    ∀ (ts : List Token) (s : ScanState),
      activeFilter (isStructural cfg) s.nesting_level ts = [] →
      scanTokens cfg lines s ts =
        .ok { s with nesting_level := s.nesting_level + sumNesting ts } := by
  intro ts
  induction ts with
  | nil =>
    intro s _
    simp [scanTokens, sumNesting]
  | cons t ts ih =>
    intro s hact
    by_cases hn : s.nesting_level + t.nesting = 0
    · have hs : isStructural cfg t = false := by
        cases hcon : isStructural cfg t with
        | false => rfl
        | true =>
          rw [activeFilter_cons_pos (isStructural cfg) s.nesting_level t ts hn hcon]
            at hact
          exact absurd hact (by simp)
      have hcf : isCodeFence cfg t = false := by
        revert hs
        simp only [isStructural, isDirectiveFence, Bool.or_eq_false_iff]
        intro hs
        exact hs.1.1
      have hrf : isRawFence cfg t = false := by
        revert hs
        simp only [isStructural, isDirectiveFence, Bool.or_eq_false_iff]
        intro hs
        exact hs.1.2
      have hbt : isBreakTok t = false := by
        revert hs
        simp only [isStructural, isDirectiveFence, Bool.or_eq_false_iff]
        intro hs
        exact hs.2
      rw [scanTokens_cons_ok cfg lines s _ t ts
        (processToken_other cfg lines s t hn hcf hrf hbt)]
      rw [activeFilter_cons_neg (isStructural cfg) s.nesting_level t ts
        (fun hcon => by rw [hs] at hcon; exact Bool.noConfusion hcon.2)] at hact
      have hrec := ih { s with nesting_level := s.nesting_level + t.nesting } hact
      simp only at hrec
      rw [hrec]
      simp [sumNesting, add_assoc]
    · rw [scanTokens_cons_ok cfg lines s _ t ts
        (processToken_inactive cfg lines s t hn)]
      rw [activeFilter_cons_neg (isStructural cfg) s.nesting_level t ts
        (fun hcon => hn hcon.1)] at hact
      have hrec := ih { s with nesting_level := s.nesting_level + t.nesting } hact
      simp only at hrec
      rw [hrec]
      simp [sumNesting, add_assoc]

/-! ## Unfolding lemmas for the conversion entry point -/

/-- `myst_to_notebook` without a leading front-matter token: document
metadata is the empty dict, and the markdown cursor starts at line 0. -/
theorem myst_to_notebook_no_fm (cfg : Config)
    (yl : String → Except String Json) (lines : List String)
    (t0 : Token) (rest : List Token)
    (h : (t0.type == "front_matter") = false) :
    myst_to_notebook cfg yl lines (t0 :: rest) =
      (scanTokens cfg lines
          { nesting_level := 0, md_metadata := [], md_start_line := 0,
            cells := [] } (t0 :: rest)).bind fun sF =>
        Except.ok
          { metadata := Json.obj [],
            cells := flushAppend cfg lines sF.md_start_line none
              sF.md_metadata sF.cells } := by
  simp only [myst_to_notebook, h]
  rfl

/-- `myst_to_notebook` with a front-matter token whose YAML parses: the
parsed tree becomes the document metadata, the markdown cursor starts at the
front matter's end line, and the remaining tokens are scanned. -/
theorem myst_to_notebook_fm_ok (cfg : Config)
    (yl : String → Except String Json) (lines : List String)
    (t0 : Token) (rest : List Token) (m : Json)
    (h : (t0.type == "front_matter") = true) (hy : yl t0.content = .ok m) :
    myst_to_notebook cfg yl lines (t0 :: rest) =
      (scanTokens cfg lines
          { nesting_level := 0, md_metadata := [], md_start_line := t0.map.2,
            cells := [] } rest).bind fun sF =>
        Except.ok
          { metadata := m,
            cells := flushAppend cfg lines sF.md_start_line none
              sF.md_metadata sF.cells } := by
  simp only [myst_to_notebook, h, hy]
  rfl

/-- `myst_to_notebook` with a front-matter token whose YAML fails to parse
raises `MystMetadataParsingError` carrying only the prefix
`Notebook metadata:` and the parser's message. -/
theorem myst_to_notebook_fm_err (cfg : Config)
    (yl : String → Except String Json) (lines : List String)
    (t0 : Token) (rest : List Token) (e : String)
    (h : (t0.type == "front_matter") = true) (hy : yl t0.content = .error e) :
    myst_to_notebook cfg yl lines (t0 :: rest) =
      .error (.mystMetadataParsingError ("Notebook metadata: " ++ e)) := by
  simp only [myst_to_notebook, h, hy]
  rfl

/-- A successful conversion ends with a final markdown flush of some scan
state reached from an all-empty initial state. -/
theorem myst_ok_cells (cfg : Config) (yl : String → Except String Json)
    (lines : List String) (tokens : List Token) (nb : Notebook)
    (h : myst_to_notebook cfg yl lines tokens = .ok nb) :
    ∃ (toks : List Token) (start0 : Nat) (sF : ScanState),
      scanTokens cfg lines
        { nesting_level := 0, md_metadata := [], md_start_line := start0,
          cells := [] } toks = .ok sF ∧
      nb.cells = flushAppend cfg lines sF.md_start_line none
        sF.md_metadata sF.cells := by
  cases tokens with
  | nil => exact absurd h (by simp [myst_to_notebook])
  | cons t0 rest =>
    cases hf : (t0.type == "front_matter") with
    | false =>
      rw [myst_to_notebook_no_fm cfg yl lines t0 rest hf] at h
      cases hs : scanTokens cfg lines
          { nesting_level := 0, md_metadata := [], md_start_line := 0,
            cells := [] } (t0 :: rest) with
      | error e => rw [hs] at h; exact absurd h (by simp [Except.bind])
      | ok sF =>
        rw [hs] at h
        simp only [Except.bind] at h
        refine ⟨t0 :: rest, 0, sF, hs, ?_⟩
        have := Except.ok.inj h
        rw [← this]
    | true =>
      cases hy : yl t0.content with
      | error e =>
        rw [myst_to_notebook_fm_err cfg yl lines t0 rest e hf hy] at h
        exact absurd h (by simp)
      | ok m =>
        rw [myst_to_notebook_fm_ok cfg yl lines t0 rest m hf hy] at h
        cases hs : scanTokens cfg lines
            { nesting_level := 0, md_metadata := [], md_start_line := t0.map.2,
              cells := [] } rest with
        | error e => rw [hs] at h; exact absurd h (by simp [Except.bind])
        | ok sF =>
          rw [hs] at h
          simp only [Except.bind] at h
          refine ⟨rest, t0.map.2, sF, hs, ?_⟩
          have := Except.ok.inj h
          rw [← this]

/-! ## The markdown-source invariant (claim C10 core) -/

/-- A cell produced by `flush_markdown` satisfies the invariant. -/
theorem flush_markdown_mdSourceOk (cfg : Config) (lines : List String)
    (start_line : Nat) (tok : Option Token) (md : List (String × Json))
    (c : Cell) (h : flush_markdown cfg lines start_line tok md = some c) :
    mdSourceOk c := by
  obtain ⟨-, hsrc, hne⟩ := flush_markdown_some cfg lines start_line tok md c h
  intro _
  refine ⟨hne, ?_, ?_⟩
  · intro hhead
    rw [hsrc] at hhead
    exact strip_blank_lines_head _ '\n' hhead rfl
  · cases hgl : c.source.data.getLast? with
    | none => rfl
    | some ch =>
      rw [hsrc] at hgl
      have := strip_blank_lines_last _ ch hgl
      simp [Option.all, this]

/-- Flushing preserves the markdown-source invariant. -/
theorem flushAppend_mdSourceOk (cfg : Config) (lines : List String)
    (start_line : Nat) (tok : Option Token) (md : List (String × Json))
    (cells : List Cell) (hc : ∀ c ∈ cells, mdSourceOk c) :
    ∀ c ∈ flushAppend cfg lines start_line tok md cells, mdSourceOk c := by
  intro c hmem
  unfold flushAppend at hmem
  rw [List.mem_append] at hmem
  cases hmem with
  | inl hmem => exact hc c hmem
  | inr hmem =>
    cases hf : flush_markdown cfg lines start_line tok md with
    | none => rw [hf] at hmem; exact absurd hmem (by simp)
    | some c0 =>
      rw [hf] at hmem
      simp only [Option.toList, List.mem_singleton] at hmem
      rw [hmem]
      exact flush_markdown_mdSourceOk cfg lines start_line tok md c0 hf

/-- Shape of the cells after one scan step: either untouched, or extended
by a markdown flush plus (possibly) one non-markdown cell. -/
theorem processToken_cells_shape (cfg : Config) (lines : List String)
    (s : ScanState) (t : Token) (s1 : ScanState)
    (h : processToken cfg lines s t = .ok s1) :
    s1.cells = s.cells ∨
      ∃ cext, s1.cells =
          flushAppend cfg lines s.md_start_line (some t) s.md_metadata
            s.cells ++ cext ∧
        ∀ c ∈ cext, c.cell_type ≠ CellType.markdown := by
  by_cases hn : s.nesting_level + t.nesting = 0
  · by_cases hcf : isCodeFence cfg t = true
    · cases hp : read_fenced_cell cfg.parseDirectiveText t
          (flushAppend cfg lines s.md_start_line (some t) s.md_metadata
            s.cells).length "Code" with
      | error e =>
        rw [processToken_code_err cfg lines s t e hn hcf hp] at h
        exact absurd h (by simp)
      | ok r =>
        obtain ⟨options, body_lines⟩ := r
        rw [processToken_code cfg lines s t options body_lines hn hcf hp] at h
        have hs1 := Except.ok.inj h
        right
        refine ⟨_, by rw [← hs1], ?_⟩
        intro c hmem
        simp only [List.mem_singleton] at hmem
        rw [hmem]
        intro hcon
        exact CellType.noConfusion hcon
    · by_cases hrf : isRawFence cfg t = true
      · cases hp : read_fenced_cell cfg.parseDirectiveText t
            (flushAppend cfg lines s.md_start_line (some t) s.md_metadata
              s.cells).length "Raw" with
        | error e =>
          rw [processToken_raw_err cfg lines s t e hn
            (by simpa using hcf) hrf hp] at h
          exact absurd h (by simp)
        | ok r =>
          obtain ⟨options, body_lines⟩ := r
          rw [processToken_raw cfg lines s t options body_lines hn
            (by simpa using hcf) hrf hp] at h
          have hs1 := Except.ok.inj h
          right
          refine ⟨_, by rw [← hs1], ?_⟩
          intro c hmem
          simp only [List.mem_singleton] at hmem
          rw [hmem]
          intro hcon
          exact CellType.noConfusion hcon
      · by_cases hbt : isBreakTok t = true
        · cases hp : read_cell_metadata cfg.jsonLoads t
              (flushAppend cfg lines s.md_start_line (some t) s.md_metadata
                s.cells).length with
          | error e =>
            rw [processToken_break_err cfg lines s t e hn hbt hp] at h
            exact absurd h (by simp)
          | ok m =>
            rw [processToken_break_ok cfg lines s t m hn hbt hp] at h
            have hs1 := Except.ok.inj h
            right
            exact ⟨[], by rw [← hs1]; simp, by simp⟩
        · rw [processToken_other cfg lines s t hn (by simpa using hcf)
            (by simpa using hrf) (by simpa using hbt)] at h
          have hs1 := Except.ok.inj h
          left
          rw [← hs1]
  · rw [processToken_inactive cfg lines s t hn] at h
    have hs1 := Except.ok.inj h
    left
    rw [← hs1]

/-- The scan preserves the markdown-source invariant. -/
theorem scanTokens_mdSourceOk (cfg : Config) (lines : List String) :
    ∀ (ts : List Token) (s s' : ScanState),
      (∀ c ∈ s.cells, mdSourceOk c) →
      scanTokens cfg lines s ts = .ok s' →
      ∀ c ∈ s'.cells, mdSourceOk c := by
  intro ts
  induction ts with
  | nil =>
    intro s s' hc h
    have : s = s' := by simpa [scanTokens] using h
    rw [← this]
    exact hc
  | cons t ts ih =>
    intro s s' hc h
    cases hp : processToken cfg lines s t with
    | error e =>
      rw [scanTokens_cons_err cfg lines s t ts e hp] at h
      exact absurd h (by simp)
    | ok s1 =>
      rw [scanTokens_cons_ok cfg lines s s1 t ts hp] at h
      refine ih s1 s' ?_ h
      cases processToken_cells_shape cfg lines s t s1 hp with
      | inl hsame => rw [hsame]; exact hc
      | inr hext =>
        obtain ⟨cext, hcells, hnomd⟩ := hext
        rw [hcells]
        intro c hmem
        rw [List.mem_append] at hmem
        cases hmem with
        | inl hmem =>
          exact flushAppend_mdSourceOk cfg lines s.md_start_line (some t)
            s.md_metadata s.cells hc c hmem
        | inr hmem =>
          intro hmd
          exact absurd hmd (hnomd c hmem)

/-! ## Claim C1 -/

/-- C1: a Code or Raw cell is appended for exactly those fence tokens whose
info string starts with the code/raw directive name and whose running
nesting level is exactly 0 after adding the token's nesting delta
(first conjunct, stated on the ordered list of non-markdown cell types);
a token processed at non-zero nesting leaves the whole state — cells,
pending metadata and markdown start line — unchanged, so a nested directive
fence produces no cell and its lines fold into the surrounding markdown
run (second conjunct). -/
theorem c1_top_level_fences_exactly (cfg : Config) (lines : List String) :
    (∀ (ts : List Token) (s s' : ScanState),
        scanTokens cfg lines s ts = .ok s' →
        codeRawTypes s'.cells = codeRawTypes s.cells ++
          (activeFilter (isDirectiveFence cfg) s.nesting_level ts).map
            (fenceCellType cfg)) ∧
    (∀ (s : ScanState) (t : Token), s.nesting_level + t.nesting ≠ 0 →
        processToken cfg lines s t =
          .ok { s with nesting_level := s.nesting_level + t.nesting }) :=
  ⟨scan_codeRawTypes cfg lines,
   fun s t h => processToken_inactive cfg lines s t h⟩

/-- Witness for C1 on a concrete stream: the nested directive fence yields
no cell, the top-level one yields exactly one code cell; a step at nesting
level 1 leaves the state unchanged. -/
theorem c1_top_level_fences_exactly_witness :
    codeRawTypes c1Final.cells =
      codeRawTypes (([] : List Cell)) ++
        (activeFilter (isDirectiveFence sampleCfg) 0 c1Tokens).map
          (fenceCellType sampleCfg) ∧
    processToken sampleCfg []
        { nesting_level := 1, md_metadata := [], md_start_line := 0,
          cells := [] } tokNestedFence =
      .ok { nesting_level := 1, md_metadata := [], md_start_line := 0,
            cells := [] } :=
  ⟨(c1_top_level_fences_exactly sampleCfg []).1 c1Tokens
      { nesting_level := 0, md_metadata := [], md_start_line := 0,
        cells := [] } c1Final rfl,
   (c1_top_level_fences_exactly sampleCfg []).2
      { nesting_level := 1, md_metadata := [], md_start_line := 0,
        cells := [] } tokNestedFence (by decide)⟩

/-! ## Claim C2 -/

/-- Counterexample to C2 as stated: on the input line " foo" (a paragraph
whose token stream has no fence and no break), the one markdown cell's
source is " foo" — the leading space survives — while the
whitespace-trimmed input is "foo". -/
theorem c2_trimmed_input_counterexample :
    cellShapes (myst_to_notebook sampleCfg sampleYaml [" foo"] c2Tokens) =
      .ok [(CellType.markdown, " foo")] ∧
    whitespaceTrimmedInput [" foo"] = "foo" ∧
    (" foo" : String) ≠ "foo" :=
  ⟨rfl, rfl, by decide⟩

/-- C2 (amended): for every source and non-empty token stream that does not
start with a front-matter token and contains no top-level directive fence
and no top-level document break, the conversion returns a notebook with
exactly one markdown cell whose source is the joined input lines with
trailing whitespace and leading empty lines stripped (`strip_blank_lines`),
or with zero cells when that stripped text is empty. -/
theorem c2_single_markdown_cell (cfg : Config)
    (yl : String → Except String Json) (lines : List String)
    (t0 : Token) (rest : List Token)
    (hf : (t0.type == "front_matter") = false)
    (hs : activeFilter (isStructural cfg) 0 (t0 :: rest) = []) :
    cellShapes (myst_to_notebook cfg yl lines (t0 :: rest)) =
      .ok (if strip_blank_lines (joinNl lines) = "" then []
           else [(CellType.markdown, strip_blank_lines (joinNl lines))]) := by
  rw [myst_to_notebook_no_fm cfg yl lines t0 rest hf]
  have hscan := scan_no_structural cfg lines (t0 :: rest)
    { nesting_level := 0, md_metadata := [], md_start_line := 0, cells := [] }
    hs
  rw [hscan]
  simp only [Except.bind]
  have hslice : pySlice lines 0 (flushEndline lines none) = lines := by
    simp [pySlice, flushEndline]
  unfold cellShapes
  simp only [Except.map]
  unfold flushAppend
  rw [flush_markdown_eq]
  rw [hslice]
  by_cases he : strip_blank_lines (joinNl lines) = ""
  · rw [if_pos he, if_pos he]
    rfl
  · rw [if_neg he, if_neg he]
    rfl

/-- Witness for the amended C2 at the concrete paragraph input. -/
theorem c2_single_markdown_cell_witness :
    cellShapes (myst_to_notebook sampleCfg sampleYaml [" foo"] c2Tokens) =
      .ok (if strip_blank_lines (joinNl [" foo"]) = "" then []
           else [(CellType.markdown, strip_blank_lines (joinNl [" foo"]))]) :=
  c2_single_markdown_cell sampleCfg sampleYaml [" foo"] tokParaOpen
    [tokParaInline, tokParaClose] rfl rfl

/-! ## Claim C3 -/

/-- C3: for a document-break token, empty content yields the empty metadata
map; otherwise the stripped content is passed to the JSON parser, and a
parse failure or a non-object result raises `MystMetadataParsingError`
naming the markdown cell's ordinal index and its 1-based source line
(`token.map[0] + 1`); in the scan the index passed is the number of cells
produced so far (after the flush), and the raised error aborts the scan, so
no further cell is produced. -/
theorem c3_break_metadata (jl : String → Except String Json)
    (cfg : Config) (lines : List String) (t : Token) (i : Nat) :
    (t.content = "" → read_cell_metadata jl t i = .ok []) ∧
    (∀ e, t.content ≠ "" → jl (pyStrip t.content) = .error e →
      read_cell_metadata jl t i = .error (.mystMetadataParsingError
        ("Markdown cell " ++ toString i ++ " at line " ++
          toString (t.map.1 + 1) ++ " could not be read: " ++ e))) ∧
    (∀ v, t.content ≠ "" → jl (pyStrip t.content) = .ok v →
      (∀ kvs, v ≠ Json.obj kvs) →
      read_cell_metadata jl t i = .error (.mystMetadataParsingError
        ("Markdown cell " ++ toString i ++ " at line " ++
          toString (t.map.1 + 1) ++ " is not a dict"))) ∧
    (∀ (s : ScanState) (ts : List Token) (e : PyErr),
      s.nesting_level + t.nesting = 0 → isBreakTok t = true →
      read_cell_metadata cfg.jsonLoads t
        (flushAppend cfg lines s.md_start_line (some t) s.md_metadata
          s.cells).length = .error e →
      scanTokens cfg lines s (t :: ts) = .error e) := by
  refine ⟨?_, ?_, ?_, ?_⟩
  · intro h
    simp [read_cell_metadata, h]
  · intro e hne hjl
    unfold read_cell_metadata
    rw [if_neg hne, hjl]
  · intro v hne hjl hv
    unfold read_cell_metadata
    rw [if_neg hne, hjl]
    cases v with
    | obj kvs => exact absurd rfl (hv kvs)
    | null => rfl
    | bool b => rfl
    | num n => rfl
    | str s => rfl
    | arr xs => rfl
  · intro s ts e h0 hb hp
    exact scanTokens_cons_err cfg lines s t ts e
      (processToken_break_err cfg lines s t e h0 hb hp)

/-- Witness for C3 at concrete break tokens: empty content, a parse
failure (with the scan aborting), and a non-object result. -/
theorem c3_break_metadata_witness :
    read_cell_metadata sampleCfg.jsonLoads tokBreakEmpty 0 = .ok [] ∧
    read_cell_metadata sampleCfg.jsonLoads tokBreakBad 0 =
      .error (.mystMetadataParsingError
        ("Markdown cell " ++ toString 0 ++ " at line " ++
          toString (tokBreakBad.map.1 + 1) ++ " could not be read: " ++
          "jerr")) ∧
    read_cell_metadata jsonLoadsNum tokBreakBad 0 =
      .error (.mystMetadataParsingError
        ("Markdown cell " ++ toString 0 ++ " at line " ++
          toString (tokBreakBad.map.1 + 1) ++ " is not a dict")) ∧
    scanTokens sampleCfg []
        { nesting_level := 0, md_metadata := [], md_start_line := 0,
          cells := [] } [tokBreakBad] =
      .error (.mystMetadataParsingError
        ("Markdown cell " ++ toString 0 ++ " at line " ++
          toString (tokBreakBad.map.1 + 1) ++ " could not be read: " ++
          "jerr")) :=
  ⟨(c3_break_metadata sampleCfg.jsonLoads sampleCfg [] tokBreakEmpty 0).1 rfl,
   (c3_break_metadata sampleCfg.jsonLoads sampleCfg [] tokBreakBad 0).2.1
     "jerr" (by decide) rfl,
   (c3_break_metadata jsonLoadsNum sampleCfg [] tokBreakBad 0).2.2.1
     (Json.num 5) (by decide) rfl (fun kvs h => Json.noConfusion h),
   (c3_break_metadata sampleCfg.jsonLoads sampleCfg [] tokBreakBad 0).2.2.2
     { nesting_level := 0, md_metadata := [], md_start_line := 0, cells := [] }
     [] _ (by decide) rfl rfl⟩

/-! ## Claim C4 -/

/-- C4: at most one pending metadata map exists at a time and it never
carries over.  (1) After a top-level directive fence is processed the
pending metadata is the empty map.  (2) After a top-level break the pending
metadata is exactly the map parsed from that break, and the cells are the
flush of the preceding markdown run (which consumed the previous pending
map).  (3) The markdown cell a flush produces carries exactly the pending
map it was given (shown with line tracking off).  (4) Every other step —
nested token or non-structural token — leaves both the pending metadata and
the cells untouched.  Together: the map parsed from a break is attached to
only the next markdown cell flushed after it, and is then replaced. -/
theorem c4_pending_metadata_lifecycle (cfg : Config) (lines : List String) :
    (∀ (s : ScanState) (t : Token) (s1 : ScanState),
        s.nesting_level + t.nesting = 0 → isDirectiveFence cfg t = true →
        processToken cfg lines s t = .ok s1 → s1.md_metadata = []) ∧
    (∀ (s : ScanState) (t : Token) (s1 : ScanState) (m : List (String × Json)),
        s.nesting_level + t.nesting = 0 → isBreakTok t = true →
        read_cell_metadata cfg.jsonLoads t
          (flushAppend cfg lines s.md_start_line (some t) s.md_metadata
            s.cells).length = .ok m →
        processToken cfg lines s t = .ok s1 →
        s1.md_metadata = m ∧
          s1.cells = flushAppend cfg lines s.md_start_line (some t)
            s.md_metadata s.cells) ∧
    (∀ (start_line : Nat) (tok : Option Token) (md : List (String × Json))
        (c : Cell), cfg.store_line_numbers = false →
        flush_markdown cfg lines start_line tok md = some c →
        c.metadata = md) ∧
    (∀ (s : ScanState) (t : Token) (s1 : ScanState),
        (s.nesting_level + t.nesting ≠ 0 ∨ isStructural cfg t = false) →
        processToken cfg lines s t = .ok s1 →
        s1.md_metadata = s.md_metadata ∧ s1.cells = s.cells) := by
  refine ⟨?_, ?_, ?_, ?_⟩
  · intro s t s1 h0 hd h
    by_cases hcf : isCodeFence cfg t = true
    · cases hp : read_fenced_cell cfg.parseDirectiveText t
          (flushAppend cfg lines s.md_start_line (some t) s.md_metadata
            s.cells).length "Code" with
      | error e =>
        rw [processToken_code_err cfg lines s t e h0 hcf hp] at h
        exact absurd h (by simp)
      | ok r =>
        obtain ⟨options, body_lines⟩ := r
        rw [processToken_code cfg lines s t options body_lines h0 hcf hp] at h
        rw [← Except.ok.inj h]
    · have hrf : isRawFence cfg t = true := by
        revert hd
        simp only [isDirectiveFence, Bool.or_eq_true]
        intro hd
        cases hd with
        | inl hd => exact absurd hd hcf
        | inr hd => exact hd
      cases hp : read_fenced_cell cfg.parseDirectiveText t
          (flushAppend cfg lines s.md_start_line (some t) s.md_metadata
            s.cells).length "Raw" with
      | error e =>
        rw [processToken_raw_err cfg lines s t e h0
          (by simpa using hcf) hrf hp] at h
        exact absurd h (by simp)
      | ok r =>
        obtain ⟨options, body_lines⟩ := r
        rw [processToken_raw cfg lines s t options body_lines h0
          (by simpa using hcf) hrf hp] at h
        rw [← Except.ok.inj h]
  · intro s t s1 m h0 hb hp h
    rw [processToken_break_ok cfg lines s t m h0 hb hp] at h
    rw [← Except.ok.inj h]
    exact ⟨rfl, rfl⟩
  · intro start_line tok md c hstore h
    rw [flush_markdown_eq] at h
    by_cases he : strip_blank_lines (joinNl (pySlice lines start_line
        (flushEndline lines tok))) = ""
    · rw [if_pos he] at h
      exact absurd h (by simp)
    · rw [if_neg he] at h
      rw [← Option.some.inj h, hstore]
      simp
  · intro s t s1 hd h
    by_cases hn : s.nesting_level + t.nesting = 0
    · have hs : isStructural cfg t = false := by
        cases hd with
        | inl hd => exact absurd hn hd
        | inr hd => exact hd
      have hcf : isCodeFence cfg t = false := by
        revert hs
        simp only [isStructural, isDirectiveFence, Bool.or_eq_false_iff]
        intro hs
        exact hs.1.1
      have hrf : isRawFence cfg t = false := by
        revert hs
        simp only [isStructural, isDirectiveFence, Bool.or_eq_false_iff]
        intro hs
        exact hs.1.2
      have hbt : isBreakTok t = false := by
        revert hs
        simp only [isStructural, isDirectiveFence, Bool.or_eq_false_iff]
        intro hs
        exact hs.2
      rw [processToken_other cfg lines s t hn hcf hrf hbt] at h
      rw [← Except.ok.inj h]
      exact ⟨rfl, rfl⟩
    · rw [processToken_inactive cfg lines s t hn] at h
      rw [← Except.ok.inj h]
      exact ⟨rfl, rfl⟩

/-- Witness for C4: after the concrete top-level code fence the pending
metadata is empty although a pending map existed before it; a flushed
markdown cell carries exactly the pending map it was given; a nested token
changes neither the pending metadata nor the cells. -/
theorem c4_pending_metadata_lifecycle_witness :
    ({ nesting_level := 0, md_metadata := [], md_start_line := 5,
       cells := [(⟨CellType.code, "", []⟩ : Cell)] } :
        ScanState).md_metadata = [] ∧
    ({ cell_type := CellType.markdown, source := "hi",
       metadata := [("a", Json.null)] } : Cell).metadata =
      [("a", Json.null)] ∧
    (({ nesting_level := 1, md_metadata := [("a", Json.null)],
        md_start_line := 0, cells := [] } : ScanState).md_metadata =
        [("a", Json.null)] ∧
      ({ nesting_level := 1, md_metadata := [("a", Json.null)],
         md_start_line := 0, cells := [] } : ScanState).cells = []) :=
  ⟨(c4_pending_metadata_lifecycle sampleCfg []).1
      { nesting_level := 0, md_metadata := [("k", Json.null)],
        md_start_line := 0, cells := [] } tokTopFence _ (by decide)
      (by decide) rfl,
   (c4_pending_metadata_lifecycle sampleCfg ["hi"]).2.2.1 0 none
      [("a", Json.null)]
      { cell_type := CellType.markdown, source := "hi",
        metadata := [("a", Json.null)] } rfl rfl,
   (c4_pending_metadata_lifecycle sampleCfg []).2.2.2
      { nesting_level := 0, md_metadata := [("a", Json.null)],
        md_start_line := 0, cells := [] } tokListOpen _
      (Or.inl (by decide)) rfl⟩

/-! ## Claim C5 -/

/-- Counterexample to C5 as stated: with matching front matter lacking
`kernelspec.name`, `is_myst_notebook` raises `IOError`, not the
`MystMetadataParsingError` kind the claim names. -/
theorem c5_error_kind_counterexample :
    is_myst_notebook c5Yaml ["---", "jupytext:", "---"] =
      .error (.ioError
        "A myst notebook text-representation requires kernelspec/name metadata") ∧
    isMystMetaErr (is_myst_notebook c5Yaml ["---", "jupytext:", "---"]) =
      false :=
  ⟨rfl, rfl⟩

/-- C5 (amended): once the front matter parses and its
`jupytext.text_representation.format_name` equals "myst", a kernelspec
without `name` (or with `name` but without `display_name`) makes dialect
detection raise a hard error naming the absent field — but the error is
Python's `IOError`, not `MystMetadataParsingError`. -/
theorem c5_kernelspec_ioerror (yl : String → Except String Json)
    (l0 : String) (rest : List String) (fm jt tr fn ks : Json)
    (h0 : pyStartsWith l0 "---" = true)
    (h1 : yl (joinNl (rest.takeWhile
      (fun l => !(pyStartsWith l "---" || pyStartsWith l "...")))) = .ok fm)
    (h2 : pyGet fm "jupytext" (Json.obj []) = .ok jt)
    (h3 : pyGet jt "text_representation" (Json.obj []) = .ok tr)
    (h4 : pyGet tr "format_name" Json.null = .ok fn)
    (h5 : jsonEqStr fn "myst" = true)
    (h6 : pyGet fm "kernelspec" (Json.obj []) = .ok ks) :
    (pyContains ks "name" = .ok false →
      is_myst_notebook yl (l0 :: rest) = .error (.ioError
        ("A myst notebook text-representation requires " ++
          "kernelspec/name metadata"))) ∧
    (pyContains ks "name" = .ok true →
      pyContains ks "display_name" = .ok false →
      is_myst_notebook yl (l0 :: rest) = .error (.ioError
        ("A myst notebook text-representation requires " ++
          "kernelspec/display_name metadata"))) := by
  simp only [Bool.not_or] at h1
  constructor
  · intro hn
    simp only [is_myst_notebook]
    rw [if_neg (by simp [h0])]
    simp [h1, h2, h3, h4, h5, h6, hn, Except.bind]
  · intro hn hd
    simp only [is_myst_notebook]
    rw [if_neg (by simp [h0])]
    simp [h1, h2, h3, h4, h5, h6, hn, hd, Except.bind]

/-- Witness for the amended C5: the concrete front matter without a
kernelspec raises the `kernelspec/name` `IOError`. -/
theorem c5_kernelspec_ioerror_witness :
    is_myst_notebook c5Yaml ["---", "jupytext:", "---"] = .error (.ioError
      ("A myst notebook text-representation requires " ++
        "kernelspec/name metadata")) :=
  (c5_kernelspec_ioerror c5Yaml "---" ["jupytext:", "---"]
      (Json.obj [("jupytext", Json.obj [("text_representation",
        Json.obj [("format_name", Json.str "myst")])])])
      (Json.obj [("text_representation",
        Json.obj [("format_name", Json.str "myst")])])
      (Json.obj [("format_name", Json.str "myst")])
      (Json.str "myst") (Json.obj []) rfl rfl rfl rfl rfl rfl rfl).1 rfl

/-! ## Claim C6 -/

/-- Counterexample to C6 as stated: on front matter whose YAML is
malformed, `is_myst_notebook` does not return `false` — the YAML parser's
error propagates out of it uncaught. -/
theorem c6_malformed_raises_counterexample :
    is_myst_notebook c6Yaml ["---", ":", "---"] =
      .error (.yamlError "bad yaml") ∧
    is_myst_notebook c6Yaml ["---", ":", "---"] ≠ .ok false := by
  refine ⟨rfl, ?_⟩
  intro h
  exact Except.noConfusion h

/-- C6 (amended): absent front matter (empty input or a first line not
starting with "---") yields `false` without error, and so does front
matter whose `jupytext.text_representation.format_name` is not "myst";
but malformed front matter is not classified as "not this dialect" — the
YAML parser's error propagates out of `is_myst_notebook`. -/
theorem c6_not_dialect_classification (yl : String → Except String Json) :
    (is_myst_notebook yl [] = .ok false) ∧
    (∀ (l0 : String) (rest : List String), pyStartsWith l0 "---" = false →
      is_myst_notebook yl (l0 :: rest) = .ok false) ∧
    (∀ (l0 : String) (rest : List String) (e : String),
      pyStartsWith l0 "---" = true →
      yl (joinNl (rest.takeWhile
        (fun l => !(pyStartsWith l "---" || pyStartsWith l "...")))) =
        .error e →
      is_myst_notebook yl (l0 :: rest) = .error (.yamlError e)) ∧
    (∀ (l0 : String) (rest : List String) (fm jt tr fn : Json),
      pyStartsWith l0 "---" = true →
      yl (joinNl (rest.takeWhile
        (fun l => !(pyStartsWith l "---" || pyStartsWith l "...")))) =
        .ok fm →
      pyGet fm "jupytext" (Json.obj []) = .ok jt →
      pyGet jt "text_representation" (Json.obj []) = .ok tr →
      pyGet tr "format_name" Json.null = .ok fn →
      jsonEqStr fn "myst" = false →
      is_myst_notebook yl (l0 :: rest) = .ok false) := by
  refine ⟨rfl, ?_, ?_, ?_⟩
  · intro l0 rest h
    simp only [is_myst_notebook]
    rw [if_pos h]
  · intro l0 rest e h0 h1
    simp only [Bool.not_or] at h1
    simp only [is_myst_notebook]
    rw [if_neg (by simp [h0])]
    simp [h1]
  · intro l0 rest fm jt tr fn h0 h1 h2 h3 h4 h5
    simp only [Bool.not_or] at h1
    simp only [is_myst_notebook]
    rw [if_neg (by simp [h0])]
    simp [h1, h2, h3, h4, h5, Except.bind]

/-- Witness for the amended C6 at concrete inputs: a non-front-matter
document classifies as `false`; malformed front matter propagates the
parser's error; a "myst"-less format tag classifies as `false`. -/
theorem c6_not_dialect_classification_witness :
    is_myst_notebook sampleYaml ["# title"] = .ok false ∧
    is_myst_notebook c6Yaml ["---", ":", "---"] =
      .error (.yamlError "bad yaml") ∧
    is_myst_notebook c5Yaml ["# title"] = .ok false :=
  ⟨(c6_not_dialect_classification sampleYaml).2.1 "# title" [] rfl,
   (c6_not_dialect_classification c6Yaml).2.2.1 "---" [":", "---"]
     "bad yaml" rfl rfl,
   (c6_not_dialect_classification c5Yaml).2.1 "# title" [] rfl⟩

/-! ## Claim C7 -/

/-- Counterexample to C7 as stated: the `MystMetadataParsingError` raised
for malformed front-matter YAML during conversion carries only the prefix
"Notebook metadata:" and the parser's message — no cell type, no ordinal
index and no source line (the message holds no digit and no "at line"). -/
theorem c7_error_payload_counterexample :
    myst_to_notebook sampleCfg c6Yaml [] [tokFrontMatterBad] =
      .error (.mystMetadataParsingError "Notebook metadata: bad yaml") ∧
    listInfixOf "at line".data "Notebook metadata: bad yaml".data = false ∧
    List.any "Notebook metadata: bad yaml".data Char.isDigit = false :=
  ⟨rfl, by decide, by decide⟩

/-- C7 (amended): the errors raised for fenced cells and for break
metadata carry the cell type ("Code"/"Raw"/"Markdown"), the ordinal index
among cells produced so far, the 1-based source line and — for parser
failures — the underlying parser's message; the not-a-dict error carries
no parser message, and the front-matter YAML error carries only the
"Notebook metadata:" prefix and the parser's message, with no cell index
or line. -/
theorem c7_error_payloads
    (pdt : String → Except String (List (String × Json) × List String))
    (jl : String → Except String Json) (t : Token) (i : Nat) :
    (∀ (ct e : String), pdt t.content = .error e →
      read_fenced_cell pdt t i ct = .error (.mystMetadataParsingError
        (ct ++ " cell " ++ toString i ++ " at line " ++
          toString (t.map.1 + 1) ++ " could not be read: " ++ e))) ∧
    (∀ e, t.content ≠ "" → jl (pyStrip t.content) = .error e →
      read_cell_metadata jl t i = .error (.mystMetadataParsingError
        ("Markdown cell " ++ toString i ++ " at line " ++
          toString (t.map.1 + 1) ++ " could not be read: " ++ e))) ∧
    (∀ v, t.content ≠ "" → jl (pyStrip t.content) = .ok v →
      (∀ kvs, v ≠ Json.obj kvs) →
      read_cell_metadata jl t i = .error (.mystMetadataParsingError
        ("Markdown cell " ++ toString i ++ " at line " ++
          toString (t.map.1 + 1) ++ " is not a dict"))) ∧
    (∀ (cfg : Config) (yl : String → Except String Json)
        (lines : List String) (rest : List Token) (e : String),
      (t.type == "front_matter") = true → yl t.content = .error e →
      myst_to_notebook cfg yl lines (t :: rest) =
        .error (.mystMetadataParsingError ("Notebook metadata: " ++ e))) := by
  refine ⟨?_, ?_, ?_, ?_⟩
  · intro ct e hp
    unfold read_fenced_cell
    rw [hp]
  · intro e hne hjl
    unfold read_cell_metadata
    rw [if_neg hne, hjl]
  · intro v hne hjl hv
    unfold read_cell_metadata
    rw [if_neg hne, hjl]
    cases v with
    | obj kvs => exact absurd rfl (hv kvs)
    | null => rfl
    | bool b => rfl
    | num n => rfl
    | str s => rfl
    | arr xs => rfl
  · intro cfg yl lines rest e hf hy
    exact myst_to_notebook_fm_err cfg yl lines t rest e hf hy

/-- Witness for the amended C7 at concrete failures: a fenced cell whose
options fail to parse, and the front-matter YAML failure. -/
theorem c7_error_payloads_witness :
    read_fenced_cell (fun _ => .error "perr") tokTopFence 2 "Code" =
      .error (.mystMetadataParsingError
        ("Code" ++ " cell " ++ toString 2 ++ " at line " ++
          toString (tokTopFence.map.1 + 1) ++ " could not be read: " ++
          "perr")) ∧
    myst_to_notebook sampleCfg c6Yaml [] [tokFrontMatterBad] =
      .error (.mystMetadataParsingError
        ("Notebook metadata: " ++ "bad yaml")) :=
  ⟨(c7_error_payloads (fun _ => .error "perr") sampleCfg.jsonLoads
      tokTopFence 2).1 "Code" "perr" rfl,
   (c7_error_payloads (fun _ => .error "perr") sampleCfg.jsonLoads
      tokFrontMatterBad 0).2.2.2 sampleCfg c6Yaml [] [] "bad yaml" rfl rfl⟩

/-! ## Claim C8 -/

/-- Counterexample to C8 as stated: on the single line "x " (trailing
spaces, no blank line anywhere), stripping blank lines would leave "x "
unchanged, but the flush appends a cell with source "x" — `rstrip`
removed the trailing spaces of the final content line. -/
theorem c8_flush_trim_counterexample :
    flush_markdown sampleCfg ["x "] 0 none [] =
      some { cell_type := CellType.markdown, source := "x", metadata := [] } ∧
    specTrimBlankLines (pySlice ["x "] 0 (flushEndline ["x "] none)) =
      "x " ∧
    ("x" : String) ≠ "x " :=
  ⟨rfl, rfl, by decide⟩

/-- C8 (amended): the flush slices the source lines from start to end
(end exclusive), trims the joined slice by removing all trailing
whitespace (including trailing spaces of the last content line) and all
leading newline characters — a leading whitespace-only line survives —
and appends a markdown cell exactly when non-empty content remains. -/
theorem c8_flush_markdown_behavior (cfg : Config) (lines : List String)
    (start_line : Nat) (tok : Option Token) (md : List (String × Json)) :
    (flush_markdown cfg lines start_line tok md = none ↔
      strip_blank_lines (flushSliceText lines start_line tok) = "") ∧
    (∀ c, flush_markdown cfg lines start_line tok md = some c →
      c.cell_type = CellType.markdown ∧
        c.source = strip_blank_lines (flushSliceText lines start_line tok) ∧
        c.source ≠ "") ∧
    (flushSliceText lines start_line tok).data =
      List.replicate (leadNlCount (flushSliceText lines start_line tok))
          '\n' ++
        (strip_blank_lines (flushSliceText lines start_line tok)).data ++
        trailWs (flushSliceText lines start_line tok) ∧
    (∀ ch ∈ trailWs (flushSliceText lines start_line tok),
      isPySpace ch = true) := by
  refine ⟨?_, ?_, (strip_blank_lines_decomp _).1, (strip_blank_lines_decomp _).2⟩
  · simp only [flushSliceText]
    rw [flush_markdown_eq]
    by_cases he : strip_blank_lines (joinNl (pySlice lines start_line
        (flushEndline lines tok))) = ""
    · rw [if_pos he]
      exact ⟨fun _ => he, fun _ => rfl⟩
    · rw [if_neg he]
      exact ⟨fun h => Option.noConfusion h, fun h => absurd h he⟩
  · intro c h
    exact flush_markdown_some cfg lines start_line tok md c h

/-- Witness for the amended C8 at the concrete slice ["x "]. -/
theorem c8_flush_markdown_behavior_witness :
    ({ cell_type := CellType.markdown, source := "x", metadata := [] } :
        Cell).cell_type = CellType.markdown ∧
      ({ cell_type := CellType.markdown, source := "x", metadata := [] } :
          Cell).source =
        strip_blank_lines (flushSliceText ["x "] 0 none) ∧
      ({ cell_type := CellType.markdown, source := "x", metadata := [] } :
          Cell).source ≠ "" :=
  (c8_flush_markdown_behavior sampleCfg ["x "] 0 none []).2.1
    { cell_type := CellType.markdown, source := "x", metadata := [] } rfl

/-! ## Claim C9 -/

/-- C9: the conversion is deterministic — it is a pure function of the
text (its lines and token stream), the external parsers and the
configuration (directive names and line-tracking flag); two runs on equal
inputs give equal outputs, and no other state enters the result. -/
theorem c9_deterministic (cfg1 cfg2 : Config)
    (yl1 yl2 : String → Except String Json)
    (lines1 lines2 : List String) (ts1 ts2 : List Token)
    (hc : cfg1 = cfg2) (hy : yl1 = yl2) (hl : lines1 = lines2)
    (ht : ts1 = ts2) :
    myst_to_notebook cfg1 yl1 lines1 ts1 =
      myst_to_notebook cfg2 yl2 lines2 ts2 := by
  rw [hc, hy, hl, ht]

/-- Witness for C9: two runs on the concrete paragraph input coincide. -/
theorem c9_deterministic_witness :
    myst_to_notebook sampleCfg sampleYaml [" foo"] c2Tokens =
      myst_to_notebook sampleCfg sampleYaml [" foo"] c2Tokens :=
  c9_deterministic sampleCfg sampleCfg sampleYaml sampleYaml
    [" foo"] [" foo"] c2Tokens c2Tokens rfl rfl rfl rfl

/-! ## Claim C10 -/

/-- C10: every markdown cell of a successful conversion has a non-empty
source that does not begin with a newline and ends in a non-whitespace
character; and `strip_blank_lines` removes trailing spaces or tabs on the
final content line ("x \t" becomes "x") while a leading line consisting
only of spaces is not removed (" \nx" stays " \nx"). -/
theorem c10_markdown_source_invariant :
    (∀ (cfg : Config) (yl : String → Except String Json)
        (lines : List String) (tokens : List Token) (nb : Notebook),
        myst_to_notebook cfg yl lines tokens = .ok nb →
        ∀ c ∈ nb.cells, c.cell_type = CellType.markdown →
          c.source ≠ "" ∧ c.source.data.head? ≠ some '\n' ∧
            Option.all (fun ch => !(isPySpace ch)) c.source.data.getLast? =
              true) ∧
    strip_blank_lines "x \t" = "x" ∧
    strip_blank_lines " \nx" = " \nx" := by
  refine ⟨?_, rfl, rfl⟩
  intro cfg yl lines tokens nb h c hmem hmd
  obtain ⟨toks, start0, sF, hscan, hcells⟩ :=
    myst_ok_cells cfg yl lines tokens nb h
  have hsOk : ∀ c ∈ sF.cells, mdSourceOk c :=
    scanTokens_mdSourceOk cfg lines toks
      { nesting_level := 0, md_metadata := [], md_start_line := start0,
        cells := [] } sF (by intro c hc; exact absurd hc (by simp)) hscan
  have hall : ∀ c ∈ nb.cells, mdSourceOk c := by
    rw [hcells]
    exact flushAppend_mdSourceOk cfg lines sF.md_start_line none
      sF.md_metadata sF.cells hsOk
  exact hall c hmem hmd

/-- Witness for C10: the markdown cell of the concrete conversion of the
line "hi" satisfies the invariant. -/
theorem c10_markdown_source_invariant_witness :
    ((⟨CellType.markdown, "hi", []⟩ : Cell).source ≠ "" ∧
      (⟨CellType.markdown, "hi", []⟩ : Cell).source.data.head? ≠
        some '\n' ∧
      Option.all (fun ch => !(isPySpace ch))
          (⟨CellType.markdown, "hi", []⟩ : Cell).source.data.getLast? =
        true) :=
  c10_markdown_source_invariant.1 sampleCfg sampleYaml ["hi"] [tokHtml]
    ⟨Json.obj [], [(⟨CellType.markdown, "hi", []⟩ : Cell)]⟩ rfl
    (⟨CellType.markdown, "hi", []⟩ : Cell)
    (List.mem_singleton.mpr rfl) rfl
